import Mathlib

/-
  Verification of the dnsrp game coordinator and DNS plugin.

  This file is a shallow embedding of the relevant parts of the source:
  - gameserver/main.go   (coordinator: request lifecycle, assignment,
    scoring, leaderboard, registration, expiry sweep, persistence tick)
  - gameserver/db/db.go  (durable player table)
  - the CoreDNS plugin ServeDNS (dnsrp.go)

  Go machine values are modelled as follows: time.Time and UnixNano
  timestamps become Nat nanosecond counts; float64 point totals become Int
  (the source only ever adds integral deltas, which float64 represents
  exactly far beyond the magnitudes reachable here); Go maps become
  association lists with overwrite-on-insert; the buffered channel
  dnsRequestChan becomes a FIFO list of requests with its 10000 capacity
  check; the one-shot rendezvous between the blocked admission handler and
  the submit handler becomes an explicit oracle argument giving the action
  (if any) that arrives and its arrival offset.  Pointer sharing between
  the channel and the dnsRequests map is modelled by updating the map entry
  with the same request identifier whenever the popped channel value is
  mutated, which coincides with the Go heap behaviour whenever request
  identifiers are distinct.
-/

namespace Dnsrp

/-! ## Time constants (nanoseconds), from gameserver/main.go -/

def secondNanos : Nat := 1000000000

/-- The 30 s admission deadline: time.After(30 * time.Second). -/
def requestTimeoutNanos : Nat := 30 * secondNanos

/-- The 15 s too-close-to-deadline margin named by the spec. -/
def assignMarginNanos : Nat := 15 * secondNanos

/-- The 5 minute hard expiry used by cleanupExpiredRequests. -/
def expiryNanos : Nat := 300 * secondNanos

/-- MaxDNSQueueSize, the dnsRequestChan buffer capacity. -/
def MaxDNSQueueSize : Nat := 10000

/-! ## Core data structures (gameserver/main.go) -/

/-- DNSRequest, the record stored in dnsRequests and on dnsRequestChan. -/
structure DNSRequest where
  requestID : String
  name : String
  rtype : String
  rclass : String
  assigned : Bool
  timestamp : Nat
deriving Repr, DecidableEq

/-- DNSResponse, the body returned to the plugin by POST /dnsrequest. -/
structure DNSResponse where
  action : String
deriving Repr, DecidableEq

/-- Player, the in-memory player record. -/
structure Player where
  id : String
  nickname : String
  purePoints : Int
  evilPoints : Int
  pureDelta : Int
  evilDelta : Int
  assignedRequestID : String
deriving Repr, DecidableEq

/-! ## Go map operations as association lists -/

def mapLookup {α : Type} (k : String) : List (String × α) → Option α
  | [] => none
  | (k', v) :: rest => if k' = k then some v else mapLookup k rest

def mapDelete {α : Type} (k : String) : List (String × α) → List (String × α)
  | [] => []
  | (k', v) :: rest => if k' = k then mapDelete k rest else (k', v) :: mapDelete k rest

/-- Go map assignment m[k] = v: any previous binding of k is gone. -/
def mapInsert {α : Type} (k : String) (v : α) (m : List (String × α)) : List (String × α) :=
  (k, v) :: mapDelete k m

/-- In-place mutation of the record a key points at (Go pointer write). -/
def mapUpdate {α : Type} (k : String) (f : α → α) : List (String × α) → List (String × α)
  | [] => []
  | (k', v) :: rest =>
      if k' = k then (k', f v) :: mapUpdate k f rest else (k', v) :: mapUpdate k f rest

/-! ## Coordinator state -/

/-- The mutable globals of gameserver/main.go: the dnsRequests map, the
players map, the pendingActions rendezvous key set, and the buffered
dnsRequestChan queue (front of list = front of channel). -/
structure GameState where
  dnsRequests : List (String × DNSRequest)
  players : List (String × Player)
  pendingActions : List String
  dnsRequestChan : List DNSRequest
deriving Repr, DecidableEq

def initialState : GameState :=
  { dnsRequests := [], players := [], pendingActions := [], dnsRequestChan := [] }

/-! ## Identifier minting -/

/-- generateRequestID: fmt.Sprintf("req-%d", time.Now().UnixNano()). -/
def generateRequestID (nowUnixNano : Nat) : String :=
  "req-" ++ toString nowUnixNano

/-- generatePlayerID: fmt.Sprintf("player-%d", time.Now().UnixNano()). -/
def generatePlayerID (nowUnixNano : Nat) : String :=
  "player-" ++ toString nowUnixNano

/-! ## Admission (dnsRequestHandler, gameserver/main.go lines 200-269)

The handler is split at its suspension point: postDNSRequest performs the
admission steps up to the select-enqueue (returning some id on success and
none on a full queue, with the corresponding state), awaitAction models the
select on the rendezvous channel versus time.After(30 s), and
finishDNSRequest is the cleanup after the response is written. -/

def postDNSRequest (name rtype rclass : String) (now : Nat) (s : GameState) :
    Option String × GameState :=
  let rid := generateRequestID now
  let req : DNSRequest :=
    { requestID := rid, name := name, rtype := rtype, rclass := rclass,
      assigned := false, timestamp := now }
  let s1 : GameState :=
    { s with dnsRequests := mapInsert rid req s.dnsRequests,
             pendingActions := rid :: s.pendingActions }
  if s1.dnsRequestChan.length < MaxDNSQueueSize then
    (some rid, { s1 with dnsRequestChan := s1.dnsRequestChan ++ [req] })
  else
    (none, { s1 with dnsRequests := mapDelete rid s1.dnsRequests,
                     pendingActions := s1.pendingActions.erase rid })

/-- The select between the rendezvous channel and time.After(30 s).  The
oracle gives the submitted action and its arrival offset from admission in
nanoseconds, or none when no action is ever submitted. -/
def awaitAction (arrival : Option (String × Nat)) : String :=
  match arrival with
  | some (act, t) => if t < requestTimeoutNanos then act else "correct"
  | none => "correct"

/-- The cleanup at the end of dnsRequestHandler: delete from dnsRequests
and drop the rendezvous slot. -/
def finishDNSRequest (rid : String) (s : GameState) : GameState :=
  { s with dnsRequests := mapDelete rid s.dnsRequests,
           pendingActions := s.pendingActions.erase rid }

inductive HandlerResult where
  | response (r : DNSResponse)
  | serverBusy
deriving Repr, DecidableEq

/-- The whole dnsRequestHandler as run by one uninterrupted admission. -/
def dnsRequestHandlerRun (name rtype rclass : String) (now : Nat)
    (arrival : Option (String × Nat)) (s : GameState) : HandlerResult × GameState :=
  match postDNSRequest name rtype rclass now s with
  | (none, s1) => (HandlerResult.serverBusy, s1)
  | (some rid, s1) =>
      (HandlerResult.response { action := awaitAction arrival }, finishDNSRequest rid s1)

/-! ## Assignment (assignDNSRequestHandler, gameserver/main.go lines 271-333) -/

inductive FetchResult where
  | assignedReq (r : DNSRequest)
  | missingPlayerID
  | invalidPlayer
  | noneAvailable
deriving Repr, DecidableEq

/-- The fresh-assignment tail of assignDNSRequestHandler: the select on
dnsRequestChan with a default branch.  Popping the head mutates the shared
request record (Assigned = true) and links the player to it; when the
player vanished between the two lock sections the request goes to the back
of the channel. -/
def fetchFresh (playerID : String) (s : GameState) : FetchResult × GameState :=
  match s.dnsRequestChan with
  | [] => (FetchResult.noneAvailable, s)
  | req :: rest =>
      match mapLookup playerID s.players with
      | none => (FetchResult.invalidPlayer, { s with dnsRequestChan := rest ++ [req] })
      | some _ =>
          (FetchResult.assignedReq { req with assigned := true },
           { s with
               dnsRequestChan := rest,
               dnsRequests :=
                 mapUpdate req.requestID (fun r => { r with assigned := true }) s.dnsRequests,
               players :=
                 mapUpdate playerID (fun p => { p with assignedRequestID := req.requestID })
                   s.players })

/-- GET /assign.  Re-serves a still-live assignment, otherwise clears the
stale link and pops the queue head; no part of it inspects the clock. -/
def fetchAssignment (playerID : String) (s : GameState) : FetchResult × GameState :=
  if playerID = "" then (FetchResult.missingPlayerID, s)
  else
    match mapLookup playerID s.players with
    | none => (FetchResult.invalidPlayer, s)
    | some player =>
        if player.assignedRequestID = "" then fetchFresh playerID s
        else
          match mapLookup player.assignedRequestID s.dnsRequests with
          | some req =>
              if req.assigned then (FetchResult.assignedReq req, s)
              else
                fetchFresh playerID
                  { s with players :=
                      mapUpdate playerID (fun p => { p with assignedRequestID := "" }) s.players }
          | none =>
              fetchFresh playerID
                { s with players :=
                    mapUpdate playerID (fun p => { p with assignedRequestID := "" }) s.players }

/-! ## Decision submission (submitActionHandler, gameserver/main.go lines 340-418) -/

inductive SubmitResult where
  /-- 200; delivered is the action written into the rendezvous slot, or
  none when the slot was already gone. -/
  | success (delivered : Option String)
  | invalidPlayer
  | staleAssignment
  | invalidRequest
  | invalidAction
deriving Repr, DecidableEq

def submitAction (playerID requestID action : String) (s : GameState) :
    SubmitResult × GameState :=
  let scorePure : Player → Player := fun p =>
    { p with purePoints := p.purePoints + 1, pureDelta := p.pureDelta + 1,
             assignedRequestID := "" }
  let scoreEvil : Player → Player := fun p =>
    { p with evilPoints := p.evilPoints + 1, evilDelta := p.evilDelta + 1,
             assignedRequestID := "" }
  let delivered : Option String :=
    if requestID ∈ s.pendingActions then some action else none
  match mapLookup playerID s.players with
  | none => (SubmitResult.invalidPlayer, s)
  | some player =>
      if player.assignedRequestID ≠ requestID then (SubmitResult.staleAssignment, s)
      else
        match mapLookup requestID s.dnsRequests with
        | none => (SubmitResult.invalidRequest, s)
        | some req =>
            if ¬ req.assigned then (SubmitResult.invalidRequest, s)
            else if action = "correct" then
              (SubmitResult.success delivered,
               { s with players := mapUpdate playerID scorePure s.players })
            else if action = "corrupt" ∨ action = "delay" ∨ action = "nxdomain" then
              (SubmitResult.success delivered,
               { s with players := mapUpdate playerID scoreEvil s.players })
            else (SubmitResult.invalidAction, s)

/-! ## Leaderboard (leaderboardHandler, gameserver/main.go lines 420-451) -/

structure LeaderboardEntry where
  playerID : String
  nickname : String
  purePoints : Int
  evilPoints : Int
  netAlignment : Int
deriving Repr, DecidableEq

/-- Insert into a list already in descending key order. -/
def insertByKeyDesc {α : Type} (key : α → Int) (e : α) : List α → List α
  | [] => [e]
  | x :: xs => if key x ≤ key e then e :: x :: xs else x :: insertByKeyDesc key e xs

/-- sort.Slice with less i j = key i > key j: descending order by key. -/
def sortByKeyDesc {α : Type} (key : α → Int) (l : List α) : List α :=
  l.foldr (insertByKeyDesc key) []

/-- GET /leaderboard: one row per player, sorted by NetAlignment in
descending order (the sort.Slice comparison in the source). -/
def leaderboardHandler (s : GameState) : List LeaderboardEntry :=
  sortByKeyDesc (fun e => e.netAlignment)
    (s.players.map (fun e =>
      { playerID := e.2.id, nickname := e.2.nickname,
        purePoints := e.2.purePoints, evilPoints := e.2.evilPoints,
        netAlignment := e.2.purePoints - e.2.evilPoints }))

/-! ## Durable player table (gameserver/db/db.go) -/

structure DBPlayerRow where
  nickname : String
  purePoints : Int
  evilPoints : Int
deriving Repr, DecidableEq

abbrev DBTable := List (String × DBPlayerRow)

/-- CreatePlayer: INSERT INTO players (id, nickname) VALUES (?, ?); the id
column is the primary key, so an existing row makes the insert a no-op
failure. -/
def createPlayer (id nickname : String) (t : DBTable) : DBTable :=
  match mapLookup id t with
  | some _ => t
  | none => (id, { nickname := nickname, purePoints := 0, evilPoints := 0 }) :: t

/-- AddPlayerPoints: UPDATE players SET pure_points = pure_points + ?,
evil_points = evil_points + ? WHERE id = ?. -/
def addPlayerPoints (id : String) (pureDelta evilDelta : Int) (t : DBTable) : DBTable :=
  t.map (fun e =>
    if e.1 = id then
      (e.1, { e.2 with purePoints := e.2.purePoints + pureDelta,
                       evilPoints := e.2.evilPoints + evilDelta })
    else e)

/-! ## Registration (registerHandler, gameserver/main.go lines 458-491) -/

/-- The in-memory part of GET /register: mint an id and store the zeroed
player in the players map. -/
def registerPlayer (nickname : String) (now : Nat) (s : GameState) :
    Option String × GameState :=
  if nickname = "" then (none, s)
  else
    let pid := generatePlayerID now
    let p : Player :=
      { id := pid, nickname := nickname, purePoints := 0, evilPoints := 0,
        pureDelta := 0, evilDelta := 0, assignedRequestID := "" }
    (some pid, { s with players := mapInsert pid p s.players })

/-- GET /register including the asynchronous db.CreatePlayer call, whose
success is the dbOk oracle; its failure is only logged and changes nothing
in memory. -/
def registerHandler (nickname : String) (now : Nat) (dbOk : Bool) (s : GameState)
    (t : DBTable) : Option String × GameState × DBTable :=
  match registerPlayer nickname now s with
  | (none, s1) => (none, s1, t)
  | (some pid, s1) => (some pid, s1, if dbOk then createPlayer pid nickname t else t)

/-! ## Expiry sweep (cleanupExpiredRequests, gameserver/main.go lines 493-507) -/

/-- One pass of the sweep loop at wall-clock time now: delete every
dnsRequests entry older than 5 minutes.  Nothing else is touched. -/
def cleanupExpiredRequests (now : Nat) (s : GameState) : GameState :=
  { s with dnsRequests :=
      s.dnsRequests.filter (fun e => ¬ (expiryNanos < now - e.2.timestamp)) }

/-! ## Persistence tick (syncPlayersToDatabase, gameserver/main.go lines 509-528)

The per-player write outcome is the writeOk oracle; the loop resets the
deltas of a player exactly when that player's write returned no error. -/

/-- The in-memory effect of one tick on one player. -/
def syncPlayerMem (writeOk : String → Bool) (p : Player) : Player :=
  if (p.pureDelta ≠ 0 ∨ p.evilDelta ≠ 0) ∧ writeOk p.id then
    { p with pureDelta := 0, evilDelta := 0 }
  else p

/-- The durable effect of one tick: each player with nonzero deltas whose
write succeeds adds its deltas to its row, in table iteration order. -/
def syncDB (writeOk : String → Bool) (ps : List (String × Player)) (t : DBTable) : DBTable :=
  ps.foldl
    (fun acc e =>
      if (e.2.pureDelta ≠ 0 ∨ e.2.evilDelta ≠ 0) ∧ writeOk e.2.id then
        addPlayerPoints e.2.id e.2.pureDelta e.2.evilDelta acc
      else acc) t

/-- One tick of syncPlayersToDatabase. -/
def syncPlayersToDatabase (writeOk : String → Bool) (s : GameState) (t : DBTable) :
    GameState × DBTable :=
  ({ s with players := s.players.map (fun e => (e.1, syncPlayerMem writeOk e.2)) },
   syncDB writeOk s.players t)

/-! ## DNS plugin (dnsrp.go, ServeDNS) -/

/-- A DNS question: name, type, class (numeric codes as in the wire
format; the plugin converts them to textual labels before posting). -/
structure DNSQuestion where
  qname : String
  qtype : Nat
  qclass : Nat
deriving Repr, DecidableEq

/-- A resource record as the plugin synthesizes them.  The only record the
plugin ever fabricates is an A record. -/
inductive DNSRR where
  | A (rrname : String) (address : String)
deriving Repr, DecidableEq

/-- The parts of a dns.Msg the plugin reads or writes. -/
structure DNSMsg where
  msgID : Nat
  response : Bool
  rcode : Nat
  question : List DNSQuestion
  answer : List DNSRR
deriving Repr, DecidableEq

/-- The NXDOMAIN response code (dns.RcodeNameError). -/
def rcodeNameError : Nat := 3

/-- Modelled from the spec: msg.SetReply(r) from the external miekg/dns
library (not part of this repository).  Per the spec, the synthesized
replies copy the query id and question section verbatim, with the response
flag set and a success response code. -/
def setReply (r : DNSMsg) : DNSMsg :=
  { msgID := r.msgID, response := true, rcode := 0, question := r.question, answer := [] }

/-- What ServeDNS does once the action has come back from the game server:
either it writes a synthesized message or it delegates to the next plugin
in the chain ("correct", "delay" after its sleep, and unknown actions). -/
inductive ServeOutcome where
  | written (m : DNSMsg)
  | nextPlugin
deriving Repr, DecidableEq

/-- The response-synthesis switch of ServeDNS (dnsrp.go).  The A record
text is fmt.Sprintf with the first question name and 127.0.0.1. -/
def serveDNS (action : String) (r : DNSMsg) : ServeOutcome :=
  let question := (r.question.head?).getD { qname := "", qtype := 0, qclass := 0 }
  let msg := setReply r
  match action with
  | "correct" => ServeOutcome.nextPlugin
  | "corrupt" => ServeOutcome.written { msg with answer := [DNSRR.A question.qname "127.0.0.1"] }
  | "delay" => ServeOutcome.nextPlugin
  | "nxdomain" => ServeOutcome.written { msg with rcode := rcodeNameError }
  | _ => ServeOutcome.nextPlugin

/-! ## The coordinator as a state machine

Each constructor is one interleaving-atomic piece of a handler; a blocked
admission contributes its post step when it enqueues and its finish step
when it wakes and cleans up. -/

inductive Op where
  | register (nickname : String) (now : Nat)
  | post (name rtype rclass : String) (now : Nat)
  | fetch (playerID : String)
  | submit (playerID requestID action : String)
  | finish (requestID : String)
  | sweep (now : Nat)

def step (s : GameState) : Op → GameState
  | Op.register nickname now => (registerPlayer nickname now s).2
  | Op.post name rtype rclass now => (postDNSRequest name rtype rclass now s).2
  | Op.fetch playerID => (fetchAssignment playerID s).2
  | Op.submit playerID requestID action => (submitAction playerID requestID action s).2
  | Op.finish requestID => finishDNSRequest requestID s
  | Op.sweep now => cleanupExpiredRequests now s

/-- The state after a sequence of handler pieces from a fresh process. -/
def run (ops : List Op) : GameState := ops.foldl step initialState

/-! ## Counting admitted-but-unresolved requests -/

/-- Whether the request a player points at is still present and Assigned. -/
def requestLiveAssigned (s : GameState) (rid : String) : Bool :=
  match mapLookup rid s.dnsRequests with
  | some r => r.assigned
  | none => false

def playerHoldsActive (s : GameState) (e : String × Player) : Bool :=
  (e.2.assignedRequestID != "") && requestLiveAssigned s e.2.assignedRequestID

/-- Requests waiting in the queue. -/
def pendingCount (s : GameState) : Nat := s.dnsRequestChan.length

/-- Requests handed to a player and still live (the spec's assigned-active
count). -/
def assignedActiveCount (s : GameState) : Nat :=
  (s.players.filter (playerHoldsActive s)).length

/-! ## Statement forms of the spec claims that name a wall clock -/

/-- Time left before the 30 s admission deadline at wall-clock time now. -/
def remainingNanos (now : Nat) (r : DNSRequest) : Nat :=
  requestTimeoutNanos - (now - r.timestamp)

/-- The spec claim behind C3: a fetch never hands out a request whose
remaining time is at most the 15 s margin, so when every queued request is
inside the margin an otherwise-valid fetch reports none available. -/
def fetchSkipsCloseDeadline : Prop :=
  ∀ (playerID : String) (s : GameState) (now : Nat) (pl : Player),
    (∀ q ∈ s.dnsRequestChan, remainingNanos now q ≤ assignMarginNanos) →
    mapLookup playerID s.players = some pl →
    pl.assignedRequestID = "" →
    (fetchAssignment playerID s).1 = FetchResult.noneAvailable

/-- The spec claim behind C2: in every reachable state, queued plus
assigned-active requests stay within the queue capacity. -/
def pendingAssignedBound : Prop :=
  ∀ ops : List Op, pendingCount (run ops) + assignedActiveCount (run ops) ≤ MaxDNSQueueSize

/-- The spec claim behind C4: leaderboard rows are sorted by descending
total activity purePoints + evilPoints. -/
def totalsDescendingLeaderboard : Prop :=
  ∀ s : GameState,
    List.Pairwise
      (fun a b => b.purePoints + b.evilPoints ≤ a.purePoints + a.evilPoints)
      (leaderboardHandler s)

/-- The spec claim behind C7: a sweep that removes an expired request also
clears the assignment of the player holding it. -/
def sweepClearsAssignments : Prop :=
  ∀ (now : Nat) (s : GameState) (pid : String) (p : Player) (req : DNSRequest),
    mapLookup pid s.players = some p →
    mapLookup p.assignedRequestID s.dnsRequests = some req →
    expiryNanos < now - req.timestamp →
    ∃ p2, mapLookup pid (cleanupExpiredRequests now s).players = some p2 ∧
      p2.assignedRequestID = ""

/-! ## Concrete fixtures -/

def queryName : String := "example.com."

/-- The player minted by Op.register "alice" 0. -/
def alicePlayer : Player :=
  { id := "player-0", nickname := "alice", purePoints := 0, evilPoints := 0,
    pureDelta := 0, evilDelta := 0, assignedRequestID := "" }

/-- The request minted by the first flood admission (now = 1). -/
def firstReq : DNSRequest :=
  { requestID := "req-1", name := queryName, rtype := "A", rclass := "IN",
    assigned := false, timestamp := 1 }

def registeredState : GameState := step initialState (Op.register "alice" 0)

/-- n admissions at nanosecond instants 1..n. -/
def floodOps (n : Nat) : List Op :=
  (List.range n).map (fun i => Op.post queryName "A" "IN" (i + 1))

def floodState (n : Nat) : GameState := (floodOps n).foldl step registeredState

/-- Fill the queue, let a player take the head, then admit once more. -/
def c2Ops : List Op :=
  (Op.register "alice" 0 :: floodOps MaxDNSQueueSize) ++
    [Op.fetch "player-0", Op.post queryName "A" "IN" 20000]

/-- One shared nanosecond instant observed by two admissions. -/
def c5Nano : Nat := 1730000000

def c5State1 : GameState := (postDNSRequest "a.example." "A" "IN" c5Nano initialState).2

/-- A queued request admitted at t = 0, looked at 20 s later (10 s of its
deadline left, inside the 15 s margin). -/
def c3Req : DNSRequest :=
  { requestID := "req-100", name := "stale.example.", rtype := "A", rclass := "IN",
    assigned := false, timestamp := 0 }

def c3Player : Player :=
  { id := "player-3", nickname := "mallory", purePoints := 0, evilPoints := 0,
    pureDelta := 0, evilDelta := 0, assignedRequestID := "" }

def c3State : GameState :=
  { dnsRequests := [("req-100", c3Req)], players := [("player-3", c3Player)],
    pendingActions := ["req-100"], dnsRequestChan := [c3Req] }

def c3Now : Nat := 20 * secondNanos

/-- Mostly pure player: net 5, total 5. -/
def c4Saint : Player :=
  { id := "player-a", nickname := "saint", purePoints := 5, evilPoints := 0,
    pureDelta := 0, evilDelta := 0, assignedRequestID := "" }

/-- Busier but evil player: net -10, total 10. -/
def c4Gremlin : Player :=
  { id := "player-b", nickname := "gremlin", purePoints := 0, evilPoints := 10,
    pureDelta := 0, evilDelta := 0, assignedRequestID := "" }

def c4State : GameState :=
  { dnsRequests := [], players := [("player-a", c4Saint), ("player-b", c4Gremlin)],
    pendingActions := [], dnsRequestChan := [] }

def c6Req : DNSRequest :=
  { requestID := "req-6", name := "game.example.", rtype := "A", rclass := "IN",
    assigned := true, timestamp := 0 }

def c6Player : Player :=
  { id := "player-6", nickname := "carol", purePoints := 2, evilPoints := 1,
    pureDelta := 1, evilDelta := 0, assignedRequestID := "req-6" }

def c6State : GameState :=
  { dnsRequests := [("req-6", c6Req)], players := [("player-6", c6Player)],
    pendingActions := ["req-6"], dnsRequestChan := [] }

/-- An expired request still held by a player at sweep time. -/
def c7Req : DNSRequest :=
  { requestID := "req-5", name := "old.example.", rtype := "A", rclass := "IN",
    assigned := true, timestamp := 0 }

def c7Player : Player :=
  { id := "player-5", nickname := "bob", purePoints := 0, evilPoints := 0,
    pureDelta := 0, evilDelta := 0, assignedRequestID := "req-5" }

def c7State : GameState :=
  { dnsRequests := [("req-5", c7Req)], players := [("player-5", c7Player)],
    pendingActions := ["req-5"], dnsRequestChan := [] }

def c7Now : Nat := 400 * secondNanos

def c8Player : Player :=
  { id := "player-8", nickname := "dave", purePoints := 3, evilPoints := 2,
    pureDelta := 2, evilDelta := 1, assignedRequestID := "" }

def c8State : GameState :=
  { dnsRequests := [], players := [("player-8", c8Player)],
    pendingActions := [], dnsRequestChan := [] }

def c8Table : DBTable := [("player-8", { nickname := "dave", purePoints := 1, evilPoints := 1 })]

def c9Question : DNSQuestion := { qname := "example.com.", qtype := 1, qclass := 1 }

def c9Query : DNSMsg :=
  { msgID := 4660, response := false, rcode := 0, question := [c9Question], answer := [] }

/-- A player decision arriving 5 s after admission. -/
def c1Arrival : Option (String × Nat) := some ("nxdomain", 5 * secondNanos)

/-- A state whose queue already holds MaxDNSQueueSize requests. -/
def c2FullState : GameState :=
  { initialState with dnsRequestChan := List.replicate MaxDNSQueueSize firstReq }


/-! ## Association-list lemmas -/

theorem mapLookup_mapDelete_ne {α : Type} (k k2 : String) (m : List (String × α))
    (h : k2 ≠ k) : mapLookup k (mapDelete k2 m) = mapLookup k m := by
  induction m with
  | nil => rfl
  | cons e rest ih =>
      obtain ⟨k3, v⟩ := e
      by_cases h3 : k3 = k2
      · subst h3
        simp [mapDelete, mapLookup, h, ih]
      · by_cases h4 : k3 = k <;> simp [mapDelete, mapLookup, h3, h4, ih, Ne.symm h]

theorem mapLookup_mapInsert_self {α : Type} (k : String) (v : α) (m : List (String × α)) :
    mapLookup k (mapInsert k v m) = some v := by
  simp [mapInsert, mapLookup]

theorem mapLookup_mapInsert_ne {α : Type} (k k2 : String) (v : α) (m : List (String × α))
    (h : k2 ≠ k) : mapLookup k (mapInsert k2 v m) = mapLookup k m := by
  simp [mapInsert, mapLookup, h, mapLookup_mapDelete_ne k k2 m h]

theorem mapLookup_mapUpdate_self {α : Type} (k : String) (f : α → α) (m : List (String × α)) :
    mapLookup k (mapUpdate k f m) = (mapLookup k m).map f := by
  induction m with
  | nil => rfl
  | cons e rest ih =>
      obtain ⟨k3, v⟩ := e
      by_cases h3 : k3 = k <;> simp [mapUpdate, mapLookup, h3, ih]

theorem mapLookup_mapUpdate_ne {α : Type} (k k2 : String) (f : α → α)
    (m : List (String × α)) (h : k2 ≠ k) :
    mapLookup k (mapUpdate k2 f m) = mapLookup k m := by
  induction m with
  | nil => rfl
  | cons e rest ih =>
      obtain ⟨k3, v⟩ := e
      by_cases h3 : k3 = k2
      · subst h3
        simp [mapUpdate, mapLookup, h, ih]
      · by_cases h4 : k3 = k <;> simp [mapUpdate, mapLookup, h3, h4, ih, Ne.symm h]

theorem mapLookup_mapValues {α : Type} (k : String) (f : α → α) (m : List (String × α)) :
    mapLookup k (m.map (fun e => (e.1, f e.2))) = (mapLookup k m).map f := by
  induction m with
  | nil => rfl
  | cons e rest ih =>
      obtain ⟨k3, v⟩ := e
      by_cases h3 : k3 = k <;> simp [mapLookup, h3, ih]

/-! ## Sortedness of the leaderboard sort -/

theorem mem_insertByKeyDesc {α : Type} (key : α → Int) (e x : α) (l : List α) :
    x ∈ insertByKeyDesc key e l ↔ x = e ∨ x ∈ l := by
  induction l with
  | nil => simp [insertByKeyDesc]
  | cons y ys ih =>
      by_cases h : key y ≤ key e
      · simp [insertByKeyDesc, h]
      · simp [insertByKeyDesc, h, ih]
        tauto

theorem pairwise_insertByKeyDesc {α : Type} (key : α → Int) (e : α) (l : List α)
    (h : List.Pairwise (fun a b => key b ≤ key a) l) :
    List.Pairwise (fun a b => key b ≤ key a) (insertByKeyDesc key e l) := by
  induction l with
  | nil => simp [insertByKeyDesc]
  | cons y ys ih =>
      rcases List.pairwise_cons.mp h with ⟨hy, hys⟩
      by_cases hk : key y ≤ key e
      · rw [insertByKeyDesc, if_pos hk]
        refine List.pairwise_cons.mpr ⟨?_, h⟩
        intro b hb
        rcases List.mem_cons.mp hb with rfl | hb
        · exact hk
        · exact le_trans (hy b hb) hk
      · rw [insertByKeyDesc, if_neg hk]
        refine List.pairwise_cons.mpr ⟨?_, ih hys⟩
        intro b hb
        rcases (mem_insertByKeyDesc key e b ys).mp hb with rfl | hb
        · exact le_of_not_le hk
        · exact hy b hb

theorem pairwise_sortByKeyDesc {α : Type} (key : α → Int) (l : List α) :
    List.Pairwise (fun a b => key b ≤ key a) (sortByKeyDesc key l) := by
  induction l with
  | nil => simp [sortByKeyDesc]
  | cons x xs ih => exact pairwise_insertByKeyDesc key x _ ih

theorem mem_sortByKeyDesc {α : Type} (key : α → Int) (l : List α) (x : α) :
    x ∈ sortByKeyDesc key l ↔ x ∈ l := by
  induction l with
  | nil => simp [sortByKeyDesc]
  | cons y ys ih =>
      simp only [sortByKeyDesc, List.foldr_cons] at *
      rw [mem_insertByKeyDesc, ih, List.mem_cons]

/-! ## C4: leaderboard ordering -/

/-- C4, counterexample: the leaderboard is not sorted by descending total
activity.  With saint (5 pure, 0 evil) and gremlin (0 pure, 10 evil), the
handler puts saint (total 5) above gremlin (total 10). -/
theorem leaderboard_not_sorted_by_totals : ¬ totalsDescendingLeaderboard := by
  intro h
  have h2 := h c4State
  revert h2
  decide

/-- C4 (amended): GET /leaderboard is sorted in descending order of
net_alignment = pure_points - evil_points (adjacent rows are
nonincreasing in net_alignment), and every emitted row's net_alignment
field equals its pure_points - evil_points. -/
theorem leaderboard_sorted_by_netAlignment (s : GameState) :
    List.Pairwise (fun a b => b.netAlignment ≤ a.netAlignment) (leaderboardHandler s) ∧
    ∀ e ∈ leaderboardHandler s, e.netAlignment = e.purePoints - e.evilPoints := by
  constructor
  · exact pairwise_sortByKeyDesc _ _
  · intro e he
    rw [leaderboardHandler, mem_sortByKeyDesc, List.mem_map] at he
    obtain ⟨a, _, rfl⟩ := he
    rfl

/-! ## C3: assignment ignores the deadline margin -/

/-- C3, counterexample: with a single queued request admitted at t = 0 and
only 10 s of its deadline left at t = 20 s (inside the 15 s margin), a
valid fetch still hands it out instead of returning none available. -/
theorem fetch_ignores_deadline_margin : ¬ fetchSkipsCloseDeadline := by
  intro h
  have h2 := h "player-3" c3State c3Now c3Player (by decide) (by decide) (by decide)
  revert h2
  decide

/-- C3 (amended): FetchAssignment never inspects remaining time: for a
known player with no live assignment it returns 204 exactly when the queue
is empty, and otherwise hands out the queue head (marked assigned)
whatever its age. -/
theorem fetch_pops_head_unconditionally (playerID : String) (s : GameState) (pl : Player)
    (hpid : playerID ≠ "") (hp : mapLookup playerID s.players = some pl)
    (hnone : pl.assignedRequestID = "") :
    (s.dnsRequestChan = [] → (fetchAssignment playerID s).1 = FetchResult.noneAvailable) ∧
    (∀ q rest, s.dnsRequestChan = q :: rest →
      (fetchAssignment playerID s).1 = FetchResult.assignedReq { q with assigned := true }) := by
  constructor
  · intro hchan
    unfold fetchAssignment fetchFresh
    rw [if_neg hpid, hp, hchan]
    simp [hnone]
  · intro q rest hchan
    unfold fetchAssignment fetchFresh
    rw [if_neg hpid, hp, hchan]
    simp [hnone, hp]

/-- Witness for the amended C3 theorem at a concrete state. -/
theorem fetch_pops_head_unconditionally_witness :
    (fetchAssignment "player-3" c3State).1 =
      FetchResult.assignedReq { c3Req with assigned := true } :=
  (fetch_pops_head_unconditionally "player-3" c3State c3Player (by decide) (by decide)
    (by decide)).2 c3Req [] rfl

/-! ## C7: the sweep does not touch players -/

/-- C7, counterexample: the sweep at t = 400 s removes the expired request
req-5 (admitted at t = 0) but leaves bob still pointing at it. -/
theorem sweep_leaves_player_assignments : ¬ sweepClearsAssignments := by
  intro h
  have h2 := h c7Now c7State "player-5" c7Player c7Req (by decide) (by decide) (by decide)
  obtain ⟨p2, hl, he⟩ := h2
  have hc : mapLookup "player-5" (cleanupExpiredRequests c7Now c7State).players =
      some c7Player := by decide
  rw [hc] at hl
  injection hl with h3
  rw [← h3] at he
  exact absurd he (by decide)

/-- C7 (amended): each sweep pass removes from requestsById exactly the
requests whose admission timestamp is more than 5 minutes old, and leaves
the player table (hence every player assignment), the queue and the
rendezvous keys untouched; stale assignments are only cleared later, by
the next fetch for that player. -/
theorem sweep_removes_only_expired_requests (now : Nat) (s : GameState) :
    (cleanupExpiredRequests now s).players = s.players ∧
    (cleanupExpiredRequests now s).dnsRequestChan = s.dnsRequestChan ∧
    (cleanupExpiredRequests now s).pendingActions = s.pendingActions ∧
    ∀ e, e ∈ (cleanupExpiredRequests now s).dnsRequests ↔
      e ∈ s.dnsRequests ∧ now - e.2.timestamp ≤ expiryNanos := by
  refine ⟨rfl, rfl, rfl, ?_⟩
  intro e
  simp [cleanupExpiredRequests, List.mem_filter, Nat.not_lt]

/-! ## C5: request identifiers collide at equal nanoseconds -/

/-- C5: two distinct admissions (different query names, back to back)
whose time.Now().UnixNano() coincide are both minted the identifier
req-1730000000, and the second insert leaves only one requestsById entry,
clobbering the first admission. -/
theorem requestID_collision_at_equal_nanos :
    (postDNSRequest "a.example." "A" "IN" c5Nano initialState).1 = some "req-1730000000" ∧
    (postDNSRequest "b.example." "A" "IN" c5Nano c5State1).1 = some "req-1730000000" ∧
    ((postDNSRequest "b.example." "A" "IN" c5Nano c5State1).2.dnsRequests.map Prod.fst) =
      ["req-1730000000"] := by
  decide

/-! ## C1: the admission response dichotomy -/

/-- C1: every admitted request (one that is not rejected QueueFull) gets
exactly one action back: the action a player pushed through the rendezvous
slot when it arrives inside the 30 s deadline, and the default correct
otherwise; nothing outside this dichotomy is ever returned. -/
theorem admitted_response_dichotomy (name rtype rclass : String) (now : Nat)
    (arrival : Option (String × Nat)) (s : GameState) (r : DNSResponse) (s1 : GameState)
    (h : dnsRequestHandlerRun name rtype rclass now arrival s = (HandlerResult.response r, s1)) :
    (∃ a t, arrival = some (a, t) ∧ t < requestTimeoutNanos ∧ r.action = a) ∨
    ((∀ a t, arrival = some (a, t) → requestTimeoutNanos ≤ t) ∧ r.action = "correct") := by
  have hr : r.action = awaitAction arrival := by
    unfold dnsRequestHandlerRun at h
    rcases hp : postDNSRequest name rtype rclass now s with ⟨o, s2⟩
    rw [hp] at h
    cases o with
    | none => simp at h
    | some rid =>
        injection h with h1 h2
        injection h1 with h3
        rw [← h3]
  cases arrival with
  | none =>
      right
      refine ⟨?_, ?_⟩
      · intro a t hc
        cases hc
      · rw [hr]
        rfl
  | some p =>
      obtain ⟨a, t⟩ := p
      by_cases ht : t < requestTimeoutNanos
      · left
        refine ⟨a, t, rfl, ht, ?_⟩
        rw [hr]
        simp [awaitAction, ht]
      · right
        refine ⟨?_, ?_⟩
        · intro a2 t2 heq
          injection heq with heq2
          rw [show t2 = t from (congrArg Prod.snd heq2.symm)]
          exact Nat.le_of_not_lt ht
        · rw [hr]
          simp [awaitAction, ht]

/-- Witness for C1 at a concrete admission: a player decision nxdomain
arriving 5 s in is the returned action. -/
theorem admitted_response_dichotomy_witness :
    (∃ a t, c1Arrival = some (a, t) ∧ t < requestTimeoutNanos ∧
      (DNSResponse.mk "nxdomain").action = a) ∨
    ((∀ a t, c1Arrival = some (a, t) → requestTimeoutNanos ≤ t) ∧
      (DNSResponse.mk "nxdomain").action = "correct") :=
  admitted_response_dichotomy queryName "A" "IN" 1 c1Arrival initialState
    (DNSResponse.mk "nxdomain")
    (dnsRequestHandlerRun queryName "A" "IN" 1 c1Arrival initialState).2 (by decide)

/-! ## C6: scoring on a successful submit -/

/-- C6: a successful SubmitDecision raises the submitting player's
purePoints + evilPoints by exactly 1, with exactly one side (and its
delta) growing: the pure side iff the action is correct, the evil side iff
it is corrupt, delay or nxdomain; the player assignment is cleared in the
same step. -/
theorem submit_scores_exactly_one_point (playerID requestID action : String) (s : GameState)
    (d : Option String) (s1 : GameState) (p : Player)
    (hp : mapLookup playerID s.players = some p)
    (h : submitAction playerID requestID action s = (SubmitResult.success d, s1)) :
    ∃ p1, mapLookup playerID s1.players = some p1 ∧
      p1.purePoints + p1.evilPoints = p.purePoints + p.evilPoints + 1 ∧
      p1.assignedRequestID = "" ∧
      ((action = "correct" ∧ p1.purePoints = p.purePoints + 1 ∧ p1.pureDelta = p.pureDelta + 1 ∧
        p1.evilPoints = p.evilPoints ∧ p1.evilDelta = p.evilDelta) ∨
       ((action = "corrupt" ∨ action = "delay" ∨ action = "nxdomain") ∧
        p1.evilPoints = p.evilPoints + 1 ∧ p1.evilDelta = p.evilDelta + 1 ∧
        p1.purePoints = p.purePoints ∧ p1.pureDelta = p.pureDelta)) := by
  unfold submitAction at h
  simp only [hp] at h
  split at h
  · simp at h
  · split at h
    · simp at h
    · split at h
      · simp at h
      · split at h
        · next hcorrect =>
            injection h with h1 h2
            refine ⟨{ p with purePoints := p.purePoints + 1, pureDelta := p.pureDelta + 1,
                             assignedRequestID := "" }, ?_, by dsimp only; omega, rfl,
                    Or.inl ⟨hcorrect, rfl, rfl, rfl, rfl⟩⟩
            rw [← h2]
            simp [mapLookup_mapUpdate_self, hp]
        · split at h
          · next hevil =>
              injection h with h1 h2
              refine ⟨{ p with evilPoints := p.evilPoints + 1, evilDelta := p.evilDelta + 1,
                               assignedRequestID := "" }, ?_, by dsimp only; omega, rfl,
                      Or.inr ⟨hevil, rfl, rfl, rfl, rfl⟩⟩
              rw [← h2]
              simp [mapLookup_mapUpdate_self, hp]
          · simp at h

/-- Witness for C6: carol submits corrupt for her assigned request and
gains exactly one evil point. -/
theorem submit_scores_exactly_one_point_witness :
    ∃ p1, mapLookup "player-6" (submitAction "player-6" "req-6" "corrupt" c6State).2.players =
        some p1 ∧
      p1.purePoints + p1.evilPoints = c6Player.purePoints + c6Player.evilPoints + 1 ∧
      p1.assignedRequestID = "" ∧
      (("corrupt" = "correct" ∧ p1.purePoints = c6Player.purePoints + 1 ∧
        p1.pureDelta = c6Player.pureDelta + 1 ∧
        p1.evilPoints = c6Player.evilPoints ∧ p1.evilDelta = c6Player.evilDelta) ∨
       (("corrupt" = "corrupt" ∨ "corrupt" = "delay" ∨ "corrupt" = "nxdomain") ∧
        p1.evilPoints = c6Player.evilPoints + 1 ∧ p1.evilDelta = c6Player.evilDelta + 1 ∧
        p1.purePoints = c6Player.purePoints ∧ p1.pureDelta = c6Player.pureDelta)) :=
  submit_scores_exactly_one_point "player-6" "req-6" "corrupt" c6State (some "corrupt")
    (submitAction "player-6" "req-6" "corrupt" c6State).2 c6Player (by decide) (by decide)

/-! ## C8: the persistence tick -/

/-- Looking up a key that a key-preserving map leaves alone. -/
theorem mapLookup_map_untouched {α : Type} (k : String) (f : (String × α) → (String × α))
    (t : List (String × α)) (hkeys : ∀ e, (f e).1 = e.1)
    (hfix : ∀ e, e.1 = k → f e = e) :
    mapLookup k (t.map f) = mapLookup k t := by
  induction t with
  | nil => rfl
  | cons e rest ih =>
      obtain ⟨k3, v⟩ := e
      by_cases h3 : k3 = k
      · rw [List.map_cons, hfix (k3, v) h3]
        simp only [mapLookup]
        rw [if_pos h3, if_pos h3]
      · rcases hw : f (k3, v) with ⟨k4, v4⟩
        have hk4 : k4 = k3 := by
          have h5 := hkeys (k3, v)
          rw [hw] at h5
          exact h5
        rw [List.map_cons, hw]
        simp only [mapLookup, hk4]
        rw [if_neg h3, if_neg h3, ih]

theorem mapLookup_addPlayerPoints_ne (id id2 : String) (pd ed : Int) (t : DBTable)
    (h : id2 ≠ id) : mapLookup id (addPlayerPoints id2 pd ed t) = mapLookup id t := by
  unfold addPlayerPoints
  refine mapLookup_map_untouched id _ t ?_ ?_
  · intro e
    by_cases h3 : e.1 = id2 <;> simp [h3]
  · intro e he
    have h4 : e.1 ≠ id2 := by
      rw [he]
      exact fun hc => h hc.symm
    simp [h4]

/-- A player whose write fails keeps its durable row untouched by the
whole tick, whatever happens to the other players. -/
theorem mapLookup_syncDB_writeFail (writeOk : String → Bool) (ps : List (String × Player))
    (t : DBTable) (id : String) (hid : writeOk id = false) :
    mapLookup id (syncDB writeOk ps t) = mapLookup id t := by
  induction ps generalizing t with
  | nil => rfl
  | cons e rest ih =>
      show mapLookup id (syncDB writeOk rest _) = _
      rw [ih]
      dsimp only
      split
      · next hcond =>
          refine mapLookup_addPlayerPoints_ne id e.2.id _ _ t ?_
          intro hcontra
          rw [hcontra] at hcond
          rw [hid] at hcond
          exact Bool.false_ne_true hcond.2
      · rfl

/-- C8: in one persistence tick, a player with a nonzero delta has its
in-memory deltas reset to 0 when its durable point write succeeds, and on
a failed write the player record (hence both deltas) and its durable row
are left unchanged, so the same amounts are retried next tick. -/
theorem sync_resets_deltas_iff_write_succeeded (writeOk : String → Bool) (s : GameState)
    (t : DBTable) (k : String) (p : Player)
    (hp : mapLookup k s.players = some p)
    (hnz : p.pureDelta ≠ 0 ∨ p.evilDelta ≠ 0) :
    ∃ p1, mapLookup k (syncPlayersToDatabase writeOk s t).1.players = some p1 ∧
      (writeOk p.id = true → p1.pureDelta = 0 ∧ p1.evilDelta = 0) ∧
      (writeOk p.id = false → p1 = p ∧
        mapLookup p.id (syncPlayersToDatabase writeOk s t).2 = mapLookup p.id t) := by
  refine ⟨syncPlayerMem writeOk p, ?_, ?_, ?_⟩
  · show mapLookup k (s.players.map _) = _
    rw [mapLookup_mapValues, hp]
    rfl
  · intro hok
    unfold syncPlayerMem
    rw [if_pos ⟨hnz, hok⟩]
    exact ⟨rfl, rfl⟩
  · intro hfail
    constructor
    · unfold syncPlayerMem
      rw [if_neg]
      intro hcond
      rw [hfail] at hcond
      exact Bool.false_ne_true hcond.2
    · exact mapLookup_syncDB_writeFail writeOk s.players t p.id hfail

/-- Witness for C8: dave (deltas 2 and 1) with a failing write keeps both
deltas and his durable row; the theorem is applied with the all-fail
oracle. -/
theorem sync_resets_deltas_iff_write_succeeded_witness :
    ∃ p1, mapLookup "player-8"
        (syncPlayersToDatabase (fun _ => false) c8State c8Table).1.players = some p1 ∧
      ((fun (_ : String) => false) c8Player.id = true → p1.pureDelta = 0 ∧ p1.evilDelta = 0) ∧
      ((fun (_ : String) => false) c8Player.id = false → p1 = c8Player ∧
        mapLookup c8Player.id (syncPlayersToDatabase (fun _ => false) c8State c8Table).2 =
          mapLookup c8Player.id c8Table) :=
  sync_resets_deltas_iff_write_succeeded (fun _ => false) c8State c8Table "player-8" c8Player
    (by decide) (by decide)

/-! ## C9: the synthesized corrupt reply -/

/-- C9: for a query answered with corrupt, the plugin writes a reply whose
answer section is exactly one A record mapping the queried name to
127.0.0.1, and which carries the original question section and query id
unchanged. -/
theorem corrupt_reply_single_A_record (r : DNSMsg) (q : DNSQuestion) (qs : List DNSQuestion)
    (hq : r.question = q :: qs) :
    ∃ m, serveDNS "corrupt" r = ServeOutcome.written m ∧
      m.answer = [DNSRR.A q.qname "127.0.0.1"] ∧
      m.question = r.question ∧ m.msgID = r.msgID ∧ m.response = true ∧ m.rcode = 0 := by
  refine ⟨{ msgID := r.msgID, response := true, rcode := 0, question := r.question,
            answer := [DNSRR.A q.qname "127.0.0.1"] }, ?_, rfl, rfl, rfl, rfl, rfl⟩
  simp [serveDNS, setReply, hq]

/-- Witness for C9 on a concrete one-question query. -/
theorem corrupt_reply_single_A_record_witness :
    ∃ m, serveDNS "corrupt" c9Query = ServeOutcome.written m ∧
      m.answer = [DNSRR.A c9Question.qname "127.0.0.1"] ∧
      m.question = c9Query.question ∧ m.msgID = c9Query.msgID ∧ m.response = true ∧
      m.rcode = 0 :=
  corrupt_reply_single_A_record c9Query c9Question [] rfl

/-! ## C10: registration survives durable-write failure -/

/-- C10: a registration with a non-empty nickname returns a freshly minted
player id and stores the zeroed player in the in-memory table whether or
not the asynchronous durable CreatePlayer write succeeds: the response and
the coordinator state do not depend on the write outcome (which, on
failure, leaves the durable table untouched). -/
theorem register_inserts_regardless_of_db (nickname : String) (now : Nat) (s : GameState)
    (t : DBTable) (h : nickname ≠ "") :
    ∃ p, (registerHandler nickname now true s t).1 = some (generatePlayerID now) ∧
      (registerHandler nickname now false s t).1 = some (generatePlayerID now) ∧
      (registerHandler nickname now false s t).2.1 = (registerHandler nickname now true s t).2.1 ∧
      (registerHandler nickname now false s t).2.2 = t ∧
      mapLookup (generatePlayerID now) (registerHandler nickname now false s t).2.1.players =
        some p ∧
      p.nickname = nickname ∧ p.purePoints = 0 ∧ p.evilPoints = 0 ∧
      p.pureDelta = 0 ∧ p.evilDelta = 0 ∧ p.assignedRequestID = "" := by
  refine ⟨{ id := generatePlayerID now, nickname := nickname, purePoints := 0, evilPoints := 0,
            pureDelta := 0, evilDelta := 0, assignedRequestID := "" },
          ?_, ?_, ?_, ?_, ?_, rfl, rfl, rfl, rfl, rfl, rfl⟩ <;>
    simp [registerHandler, registerPlayer, h, mapLookup_mapInsert_self]

/-- Witness for C10: registering erin with a failing durable write. -/
theorem register_inserts_regardless_of_db_witness :
    ∃ p, (registerHandler "erin" 400 true initialState []).1 = some (generatePlayerID 400) ∧
      (registerHandler "erin" 400 false initialState []).1 = some (generatePlayerID 400) ∧
      (registerHandler "erin" 400 false initialState []).2.1 =
        (registerHandler "erin" 400 true initialState []).2.1 ∧
      (registerHandler "erin" 400 false initialState []).2.2 = [] ∧
      mapLookup (generatePlayerID 400)
        (registerHandler "erin" 400 false initialState []).2.1.players = some p ∧
      p.nickname = "erin" ∧ p.purePoints = 0 ∧ p.evilPoints = 0 ∧
      p.pureDelta = 0 ∧ p.evilDelta = 0 ∧ p.assignedRequestID = "" :=
  register_inserts_regardless_of_db "erin" 400 initialState [] (by decide)

/-! ## C2: queue occupancy.  First, no handler grows the queue past its
capacity. -/

theorem registerPlayer_chan (nickname : String) (now : Nat) (s : GameState) :
    (registerPlayer nickname now s).2.dnsRequestChan = s.dnsRequestChan := by
  unfold registerPlayer
  split <;> rfl

theorem submitAction_chan (playerID requestID action : String) (s : GameState) :
    (submitAction playerID requestID action s).2.dnsRequestChan = s.dnsRequestChan := by
  unfold submitAction
  repeat' split
  all_goals rfl

theorem fetchFresh_chan_le (playerID : String) (s : GameState) :
    (fetchFresh playerID s).2.dnsRequestChan.length ≤ s.dnsRequestChan.length := by
  unfold fetchFresh
  cases hc : s.dnsRequestChan with
  | nil => simp [hc]
  | cons q rest => cases mapLookup playerID s.players <;> simp [hc]

theorem fetchAssignment_chan_le (playerID : String) (s : GameState) :
    (fetchAssignment playerID s).2.dnsRequestChan.length ≤ s.dnsRequestChan.length := by
  unfold fetchAssignment
  split
  · exact le_refl _
  · cases mapLookup playerID s.players with
    | none => exact le_refl _
    | some player =>
        dsimp only
        split
        · exact fetchFresh_chan_le playerID s
        · cases mapLookup player.assignedRequestID s.dnsRequests with
          | none => exact fetchFresh_chan_le playerID _
          | some req =>
              dsimp only
              split
              · exact le_refl _
              · exact fetchFresh_chan_le playerID _

theorem postDNSRequest_chan_le (name rtype rclass : String) (now : Nat) (s : GameState)
    (h : s.dnsRequestChan.length ≤ MaxDNSQueueSize) :
    (postDNSRequest name rtype rclass now s).2.dnsRequestChan.length ≤ MaxDNSQueueSize := by
  unfold postDNSRequest
  dsimp only
  split
  · next hlt =>
      simp only [List.length_append, List.length_cons, List.length_nil]
      omega
  · exact h

theorem step_chan_le (s : GameState) (op : Op)
    (h : s.dnsRequestChan.length ≤ MaxDNSQueueSize) :
    (step s op).dnsRequestChan.length ≤ MaxDNSQueueSize := by
  cases op with
  | register nickname now =>
      show (registerPlayer nickname now s).2.dnsRequestChan.length ≤ _
      rw [registerPlayer_chan]
      exact h
  | post name rtype rclass now => exact postDNSRequest_chan_le name rtype rclass now s h
  | fetch playerID => exact le_trans (fetchAssignment_chan_le playerID s) h
  | submit playerID requestID action =>
      show (submitAction playerID requestID action s).2.dnsRequestChan.length ≤ _
      rw [submitAction_chan]
      exact h
  | finish requestID => exact h
  | sweep now => exact h

/-- C2 (amended): in every reachable state the number of queued (Pending)
requests is at most the capacity 10000, and an admission arriving at a
full queue is rejected with QueueFull; but requests already handed to a
player no longer occupy queue capacity, so Pending + Assigned together can
exceed 10000. -/
theorem pending_bounded_and_reject_on_full :
    (∀ ops : List Op, pendingCount (run ops) ≤ MaxDNSQueueSize) ∧
    (∀ (name rtype rclass : String) (now : Nat) (s : GameState),
      MaxDNSQueueSize ≤ s.dnsRequestChan.length →
      (postDNSRequest name rtype rclass now s).1 = none) := by
  constructor
  · intro ops
    have haux : ∀ (l : List Op) (s : GameState),
        s.dnsRequestChan.length ≤ MaxDNSQueueSize →
        (l.foldl step s).dnsRequestChan.length ≤ MaxDNSQueueSize := by
      intro l
      induction l with
      | nil => intro s hs; exact hs
      | cons o rest ih =>
          intro s hs
          exact ih (step s o) (step_chan_le s o hs)
    exact haux ops initialState (Nat.zero_le _)
  · intro name rtype rclass now s hfull
    unfold postDNSRequest
    dsimp only
    rw [if_neg (by omega)]

/-- Witness for the amended C2 theorem: an admission into a state whose
queue already holds 10000 requests is turned away, and the empty run is
within the bound. -/
theorem pending_bounded_and_reject_on_full_witness :
    (postDNSRequest queryName "A" "IN" 777 c2FullState).1 = none ∧
    pendingCount (run []) ≤ MaxDNSQueueSize :=
  ⟨pending_bounded_and_reject_on_full.2 queryName "A" "IN" 777 c2FullState
     (by simp [c2FullState, initialState]),
   pending_bounded_and_reject_on_full.1 []⟩

/-- What one admission does when the queue is below capacity. -/
theorem postDNSRequest_enqueue (name rtype rclass : String) (now : Nat) (s : GameState)
    (h : s.dnsRequestChan.length < MaxDNSQueueSize) :
    postDNSRequest name rtype rclass now s =
      (some (generateRequestID now),
       { s with
           dnsRequests := mapInsert (generateRequestID now)
             { requestID := generateRequestID now, name := name, rtype := rtype,
               rclass := rclass, assigned := false, timestamp := now } s.dnsRequests,
           pendingActions := generateRequestID now :: s.pendingActions,
           dnsRequestChan := s.dnsRequestChan ++
             [{ requestID := generateRequestID now, name := name, rtype := rtype,
                rclass := rclass, assigned := false, timestamp := now }] }) := by
  unfold postDNSRequest
  dsimp only
  rw [if_pos h]

/-- Unfolding one admission of the flood. -/
theorem floodState_succ (n : Nat) :
    floodState (n + 1) = step (floodState n) (Op.post queryName "A" "IN" (n + 1)) := by
  rw [floodState, floodState, floodOps, floodOps, List.range_succ, List.map_append,
      List.foldl_append]
  rfl

/-- The invariant carried through the flood of n admissions: alice is the
only player, the queue holds exactly n requests, its head is the first
admitted request, and that request sits unassigned in requestsById. -/
theorem floodState_inv (n : Nat) (hn : n ≤ MaxDNSQueueSize) :
    (floodState n).players = [("player-0", alicePlayer)] ∧
    (floodState n).dnsRequestChan.length = n ∧
    (1 ≤ n → (floodState n).dnsRequestChan.head? = some firstReq ∧
      ∃ r, mapLookup "req-1" (floodState n).dnsRequests = some r ∧ r.assigned = false) := by
  induction n with
  | zero =>
      refine ⟨by decide, by decide, ?_⟩
      intro h1
      exact absurd h1 (by decide)
  | succ n ih =>
      obtain ⟨ihp, ihl, ihh⟩ := ih (Nat.le_of_succ_le hn)
      have hlt : (floodState n).dnsRequestChan.length < MaxDNSQueueSize := by omega
      rw [floodState_succ n, show step (floodState n) (Op.post queryName "A" "IN" (n + 1)) =
            (postDNSRequest queryName "A" "IN" (n + 1) (floodState n)).2 from rfl,
          postDNSRequest_enqueue queryName "A" "IN" (n + 1) (floodState n) hlt]
      refine ⟨ihp, ?_, ?_⟩
      · simp only [List.length_append, List.length_cons, List.length_nil, ihl]
      · intro _
        constructor
        · rcases Nat.eq_zero_or_pos n with rfl | hpos
          · have hchan : (floodState 0).dnsRequestChan = [] := by decide
            rw [hchan]
            decide
          · obtain ⟨hh, _⟩ := ihh hpos
            rcases hchan : (floodState n).dnsRequestChan with _ | ⟨a, t⟩
            · rw [hchan] at hh
              exact absurd hh (by simp)
            · rw [hchan, List.head?_cons] at hh
              dsimp only
              rw [List.cons_append, List.head?_cons]
              exact hh
        · by_cases hk : generateRequestID (n + 1) = "req-1"
          · refine ⟨{ requestID := generateRequestID (n + 1), name := queryName, rtype := "A",
                      rclass := "IN", assigned := false, timestamp := n + 1 }, ?_, rfl⟩
            dsimp only
            rw [hk]
            exact mapLookup_mapInsert_self "req-1" _ _
          · rcases Nat.eq_zero_or_pos n with rfl | hpos
            · exact absurd (by decide : generateRequestID (0 + 1) = "req-1") hk
            · rw [mapLookup_mapInsert_ne _ _ _ _ hk]
              exact (ihh hpos).2

/-- What a fetch by alice does to a state whose queue starts with the
first flood request: the head is popped, marked assigned in requestsById,
and linked to alice. -/
theorem fetch_from_full_queue (F : GameState) (T : List DNSRequest)
    (hpl : F.players = [("player-0", alicePlayer)])
    (hchan : F.dnsRequestChan = firstReq :: T) :
    (fetchAssignment "player-0" F).2 =
      { F with
          dnsRequestChan := T,
          dnsRequests := mapUpdate "req-1" (fun r => { r with assigned := true }) F.dnsRequests,
          players := [("player-0", { alicePlayer with assignedRequestID := "req-1" })] } := by
  unfold fetchAssignment fetchFresh
  rw [hpl, hchan]
  simp [mapLookup, mapUpdate, alicePlayer, firstReq]

/-- The trace run c2Ops reaches the flood state, then the fetch, then one
more admission. -/
theorem run_c2Ops_eq :
    run c2Ops = step (step (floodState MaxDNSQueueSize) (Op.fetch "player-0"))
      (Op.post queryName "A" "IN" 20000) := by
  rw [run, c2Ops, List.foldl_append, List.foldl_cons, List.foldl_cons, List.foldl_cons,
      List.foldl_nil, floodState, registeredState]

theorem step_fetch_eq (pid : String) (s : GameState) :
    step s (Op.fetch pid) = (fetchAssignment pid s).2 := rfl

theorem step_post_eq (n t c : String) (now : Nat) (s : GameState) :
    step s (Op.post n t c now) = (postDNSRequest n t c now s).2 := rfl

theorem postDNSRequest_enqueue_parts (name rtype rclass : String) (now : Nat) (s : GameState)
    (h : s.dnsRequestChan.length < MaxDNSQueueSize) :
    (postDNSRequest name rtype rclass now s).1 = some (generateRequestID now) ∧
    (postDNSRequest name rtype rclass now s).2.dnsRequests =
      mapInsert (generateRequestID now)
        { requestID := generateRequestID now, name := name, rtype := rtype, rclass := rclass,
          assigned := false, timestamp := now } s.dnsRequests ∧
    (postDNSRequest name rtype rclass now s).2.players = s.players ∧
    (postDNSRequest name rtype rclass now s).2.dnsRequestChan = s.dnsRequestChan ++
      [{ requestID := generateRequestID now, name := name, rtype := rtype, rclass := rclass,
         assigned := false, timestamp := now }] := by
  rw [postDNSRequest_enqueue name rtype rclass now s h]
  exact ⟨rfl, rfl, rfl, rfl⟩

theorem fetch_from_full_queue_parts (F : GameState) (T : List DNSRequest)
    (hpl : F.players = [("player-0", alicePlayer)])
    (hchan : F.dnsRequestChan = firstReq :: T) :
    (fetchAssignment "player-0" F).2.dnsRequestChan = T ∧
    (fetchAssignment "player-0" F).2.players =
      [("player-0", { alicePlayer with assignedRequestID := "req-1" })] ∧
    (fetchAssignment "player-0" F).2.dnsRequests =
      mapUpdate "req-1" (fun q => { q with assigned := true }) F.dnsRequests := by
  rw [fetch_from_full_queue F T hpl hchan]
  exact ⟨rfl, rfl, rfl⟩

theorem playerHoldsActive_true (k key : String) (s : GameState) (p : Player)
    (q : DNSRequest) (hkey : p.assignedRequestID = key) (hne : (key != "") = true)
    (hq : mapLookup key s.dnsRequests = some q) (hqa : q.assigned = true) :
    playerHoldsActive s (k, p) = true := by
  unfold playerHoldsActive requestLiveAssigned
  dsimp only
  rw [hkey, hq]
  dsimp only
  rw [hqa, hne]
  rfl

theorem counts_eval (s : GameState) (T2 : List DNSRequest) (e : String × Player)
    (hc : s.dnsRequestChan = T2) (hp : s.players = [e])
    (hpred : playerHoldsActive s e = true) :
    pendingCount s + assignedActiveCount s = T2.length + 1 := by
  unfold pendingCount assignedActiveCount
  rw [hc, hp, List.filter_cons, List.filter_nil, if_pos hpred]
  simp

/-- The counts in the state reached by c2Ops: 10000 queued requests plus
one assigned-active request. -/
theorem c2Final_counts :
    pendingCount (run c2Ops) + assignedActiveCount (run c2Ops) = MaxDNSQueueSize + 1 := by
  obtain ⟨hpl, hlen, hhead⟩ := floodState_inv MaxDNSQueueSize (le_refl _)
  obtain ⟨hh, r, hr, hra⟩ := hhead (by decide)
  rcases hchan : (floodState MaxDNSQueueSize).dnsRequestChan with _ | ⟨a, T⟩
  · rw [hchan] at hlen
    exact absurd hlen (by decide)
  · rw [hchan, List.head?_cons] at hh
    have ha : a = firstReq := Option.some.inj hh
    subst ha
    have hTlen : T.length + 1 = MaxDNSQueueSize := by
      rw [hchan] at hlen
      simpa using hlen
    obtain ⟨hfc, hfp, hfr⟩ :=
      fetch_from_full_queue_parts (floodState MaxDNSQueueSize) T hpl hchan
    have hflt :
        (fetchAssignment "player-0" (floodState MaxDNSQueueSize)).2.dnsRequestChan.length <
          MaxDNSQueueSize := by
      rw [hfc]
      omega
    obtain ⟨hq1, hqr, hqp, hqc⟩ :=
      postDNSRequest_enqueue_parts queryName "A" "IN" 20000 _ hflt
    have hlook : mapLookup "req-1"
        (mapInsert (generateRequestID 20000)
          { requestID := generateRequestID 20000, name := queryName, rtype := "A",
            rclass := "IN", assigned := false, timestamp := 20000 }
          (mapUpdate "req-1" (fun q => { q with assigned := true })
            (floodState MaxDNSQueueSize).dnsRequests)) = some { r with assigned := true } := by
      rw [mapLookup_mapInsert_ne _ _ _ _ (by decide), mapLookup_mapUpdate_self, hr]
      rfl
    have hq2 : mapLookup "req-1"
        (postDNSRequest queryName "A" "IN" 20000
          (fetchAssignment "player-0" (floodState MaxDNSQueueSize)).2).2.dnsRequests =
        some { r with assigned := true } := by
      rw [hqr, hfr]
      exact hlook
    have hcond := playerHoldsActive_true "player-0" "req-1"
      (postDNSRequest queryName "A" "IN" 20000
        (fetchAssignment "player-0" (floodState MaxDNSQueueSize)).2).2
      { alicePlayer with assignedRequestID := "req-1" } { r with assigned := true }
      (by decide) (by decide) hq2 rfl
    have hSc : (postDNSRequest queryName "A" "IN" 20000
        (fetchAssignment "player-0" (floodState MaxDNSQueueSize)).2).2.dnsRequestChan =
        T ++ [{ requestID := generateRequestID 20000, name := queryName, rtype := "A",
                rclass := "IN", assigned := false, timestamp := 20000 }] := by
      rw [hqc, hfc]
    have hSp : (postDNSRequest queryName "A" "IN" 20000
        (fetchAssignment "player-0" (floodState MaxDNSQueueSize)).2).2.players =
        [("player-0", { alicePlayer with assignedRequestID := "req-1" })] := by
      rw [hqp, hfp]
    rw [run_c2Ops_eq, step_post_eq, step_fetch_eq]
    rw [counts_eval _ _ _ hSc hSp hcond]
    simp only [List.length_append, List.length_cons, List.length_nil]
    omega

/-- C2, counterexample: fill the queue with 10000 admissions, have alice
take the head (the queue slot is freed but the request stays live and
assigned), then admit one more; the reached state has 10000 Pending plus
1 Assigned request. -/
theorem pending_plus_assigned_exceeds_capacity : ¬ pendingAssignedBound := by
  intro h
  have h2 := h c2Ops
  rw [c2Final_counts] at h2
  omega

end Dnsrp
